import Mathlib

/-!
Verification development for the uptime-telegram-bot repository.

The embedding follows `uptime-telegram-bot.py`:

* `OutageAnalyzer.analyze_pattern` (lines 168-227) classifies the recent
  event window into an outage type.  Events are the dict rows produced by
  `DatabaseManager.get_recent_events` (newest first); the repository's own
  tests also feed rows whose `monitor_name` or `status` value is `None`,
  so both fields are modelled as `Option String`.
* `OutageAnalyzer._is_monitor_down` (lines 229-234).
* `TelegramNotifier.send_alert` cooldown gate (lines 315-323 and 365-372),
  with `last_notification` a map from alert key to the time of the last
  successful send and `notification_cooldown = 300` (line 244-245).

Timestamps are modelled as integers counting whole seconds; Python's
`timedelta.seconds` attribute of a difference of such timestamps is the
difference reduced modulo 86400 (a day), which `Int.emod` reproduces.
-/

/-- One row of the event window consumed by `analyze_pattern`: the dict
shape built by `get_recent_events` (monitor_name, status, timestamp,
message, response_time).  The repository's tests pass rows whose
`monitor_name` or `status` is `None`, hence the `Option` fields. -/
structure RecentEvent where
  monitor_name : Option String
  status : Option String
  timestamp : Int
  message : String
  response_time : Rat
deriving DecidableEq, Repr

/-- The classification dict returned by `analyze_pattern`.  The empty-window
branch returns a dict without an `affected` key; `affected := none` models
that absent key (consumers read it with `.get('affected', [])`, modelled by
`affected_list`). -/
structure AnalysisResult where
  type : String
  confidence : Rat
  reason : String
  affected : Option (List (Option String))
deriving DecidableEq, Repr

/-- `analysis.get('affected', [])`: the affected list as every consumer of
the dict reads it, an absent key meaning the empty list. -/
def affected_list (r : AnalysisResult) : List (Option String) :=
  r.affected.getD []

/-- `OutageAnalyzer._is_monitor_down` (source lines 229-234): a monitor is
down when its status list (newest first) is non-empty and either the most
recent status equals `'down'` or `statuses.count('down') > len(statuses)/2`
(Python float division, rendered as an exact rational comparison). -/
def is_monitor_down (statuses : List (Option String)) : Bool :=
  if statuses = [] then false
  else decide (statuses.headD none = some "down")
    || decide ((statuses.count (some "down") : Rat) > (statuses.length : Rat) / 2)

/-- The grouping loop of `analyze_pattern` (lines 174-177) reads exactly the
`monitor_name` and `status` field of each event; this projection is all the
classifier depends on. -/
def status_pairs (w : List RecentEvent) : List (Option String × Option String) :=
  w.map (fun e => (e.monitor_name, e.status))

/-- `monitor_status[name]`: the statuses appended for one key by the grouping
loop, in window order (newest first).  A key absent from the window yields
`[]`, matching `monitor_status.get(name, [])`. -/
def monitor_statuses (ps : List (Option String × Option String))
    (n : Option String) : List (Option String) :=
  (ps.filter (fun p => decide (p.1 = n))).map (fun p => p.2)

/-- Insert a key if not already present (keeps first-occurrence order). -/
def addKey (ks : List (Option String)) (k : Option String) : List (Option String) :=
  if k ∈ ks then ks else ks ++ [k]

/-- The keys of the `defaultdict` grouping, in first-occurrence order and
without duplicates (Python dict key semantics). -/
def monitor_keys (ps : List (Option String × Option String)) : List (Option String) :=
  (ps.map (fun p => p.1)).foldl addKey []

/-- `'DNS' in name` for a grouping key: substring containment; for a `None`
key Python raises `TypeError`, which `classify_pairs` surfaces before this
function is consulted, so the `none` case is unreachable there. -/
def is_dns_name (n : Option String) : Bool :=
  match n with
  | some s => decide (List.IsInfix "DNS".data s.data)
  | none => false

/-- The literal list `['Google', 'Cloudflare', 'Wikipedia']` from line 184. -/
def external_site_names : List (Option String) :=
  [some "Google", some "Cloudflare", some "Wikipedia"]

/-- `router_down` (line 180): effective down-state of the grouping entry for
the literal key `'Router 192.168.1.1'`. -/
def router_down (ps : List (Option String × Option String)) : Bool :=
  is_monitor_down (monitor_statuses ps (some "Router 192.168.1.1"))

/-- `dns_monitors_down` (lines 181-182): number of grouping keys containing
`'DNS'` whose entry is effectively down. -/
def dns_monitors_down (ps : List (Option String × Option String)) : Nat :=
  (monitor_keys ps).countP
    (fun n => is_dns_name n && is_monitor_down (monitor_statuses ps n))

/-- `external_sites_down` (lines 183-185): number of grouping keys among the
external-site literals whose entry is effectively down. -/
def external_sites_down (ps : List (Option String × Option String)) : Nat :=
  (monitor_keys ps).countP
    (fun n => decide (n ∈ external_site_names)
      && is_monitor_down (monitor_statuses ps n))

/-- `down_monitors` (lines 212-213, and the comprehension of lines 208-209):
the grouping keys whose entry is effectively down, in key order. -/
def down_monitors (ps : List (Option String × Option String)) : List (Option String) :=
  (monitor_keys ps).filter (fun n => is_monitor_down (monitor_statuses ps n))

/-- The branch cascade of `analyze_pattern` lines 187-227 over the grouped
window.  A `None` grouping key makes the generator of line 182 evaluate
`'DNS' in None`, which raises `TypeError`; that is the `Except.error` case
(the counts of lines 180-185 are all computed before any branch is taken,
so the error fires whenever a `None` key exists in a non-empty window). -/
def classify_pairs (ps : List (Option String × Option String)) :
    Except String AnalysisResult :=
  if ps = [] then
    .ok { type := "UNKNOWN", confidence := 0, reason := "No recent events",
          affected := none }
  else if ps.any (fun p => decide (p.1 = none)) then
    .error "TypeError: argument of type NoneType is not iterable"
  else if router_down ps then
    if dns_monitors_down ps ≥ 2 ∨ external_sites_down ps ≥ 2 then
      .ok { type := "POWER_OUTAGE", confidence := 0.95,
            reason := "Router and external services are down",
            affected := some (monitor_keys ps) }
    else
      .ok { type := "ROUTER_FAILURE", confidence := 0.80,
            reason := "Only router is down",
            affected := some [some "Router 192.168.1.1"] }
  else if dns_monitors_down ps ≥ 2 ∨ external_sites_down ps ≥ 2 then
    .ok { type := "ISP_OUTAGE", confidence := 0.90,
          reason := "Internet services down but router is up",
          affected := some (down_monitors ps) }
  else if down_monitors ps ≠ [] then
    .ok { type := "PARTIAL_OUTAGE", confidence := 0.70,
          reason := "Only specific services affected",
          affected := some (down_monitors ps) }
  else
    .ok { type := "ALL_OPERATIONAL", confidence := 1,
          reason := "All services operational",
          affected := some [] }

/-- `OutageAnalyzer.analyze_pattern` (lines 168-227): group the window rows
by monitor name and classify.  The `recent_events` emptiness test of line
171 is equivalent to emptiness of the projected pair list. -/
def analyze_pattern (w : List RecentEvent) : Except String AnalysisResult :=
  classify_pairs (status_pairs w)

/-! ## Notification gate (`TelegramNotifier.send_alert`, lines 315-372)

`self.last_notification` is a dict from alert key to the `datetime` of the
last successful send, modelled as a map into `Option Int` (whole seconds);
`self.notification_cooldown = 300` (lines 244-245). -/

/-- The cooldown map `self.last_notification`. -/
abbrev GateState := String → Option Int

/-- `self.notification_cooldown = 300` (line 245). -/
def notification_cooldown : Int := 300

/-- Python's `timedelta.seconds` attribute for a difference of `d` whole
seconds: the day-wrapped component in `[0, 86400)`, i.e. `d % 86400` with
Python's sign convention, which `Int.emod` matches. -/
def timedelta_seconds (d : Int) : Int := d.emod 86400

/-- The cooldown check of lines 321-323: skip when the key has an entry and
`(now - last).seconds < notification_cooldown`. -/
def should_skip (st : GateState) (key : String) (now : Int) : Bool :=
  match st key with
  | some t => decide (timedelta_seconds (now - t) < notification_cooldown)
  | none => false

/-- The gate lets a candidate alert through exactly when the cooldown check
does not skip it. -/
def gate_allows (st : GateState) (key : String) (now : Int) : Bool :=
  !(should_skip st key now)

/-- Line 372, `self.last_notification[alert_key] = now`: point update of the
cooldown map. -/
def record_sent (st : GateState) (key : String) (now : Int) : GateState :=
  fun x => if x = key then some now else st x

/-- `send_alert`'s control flow around the dispatch (lines 318-372): check
the cooldown and return early when suppressed; otherwise dispatch
(`bot.send_message`, which may raise — `dispatch_ok = false`) and only
after a successful dispatch update `last_notification`.  The result is the
outcome paired with the cooldown map after the call. -/
def send_alert (st : GateState) (key : String) (now : Int) (dispatch_ok : Bool) :
    Except String Unit × GateState :=
  if should_skip st key now then (.ok (), st)
  else if dispatch_ok then (.ok (), record_sent st key now)
  else (.error "DispatchFailure", st)

/-- The notification-allowance predicate exactly as the spec words it
("no CooldownEntry exists for the key, or the elapsed time since
`last_sent_at` exceeds the configured cooldown duration"), for comparison
with `gate_allows`. -/
def spec_should_send (st : GateState) (key : String) (now : Int) : Prop :=
  st key = none ∨ ∀ t, st key = some t → now - t > notification_cooldown

/-! ## Bridge lemmas -/

/-- Python's float comparison `count > len/2`, read exactly over the
rationals, is the strict-majority test `2 * count > len`. -/
lemma down_majority_iff (c l : Nat) : ((c : Rat) > (l : Rat)/2) ↔ 2 * c > l := by
  rw [gt_iff_lt, div_lt_iff₀ (by norm_num : (0:Rat) < 2)]
  have h : ((l : Rat) < (c : Rat) * 2) ↔ (l < c * 2) := by exact_mod_cast Iff.rfl
  rw [h]
  omega

/-- Computable form of `is_monitor_down`: the rational majority test
replaced by the equivalent integer comparison. -/
lemma is_monitor_down_eval (s : List (Option String)) :
    is_monitor_down s =
      (if s = [] then false
       else decide (s.headD none = some "down")
         || decide (2 * s.count (some "down") > s.length)) := by
  unfold is_monitor_down
  split
  · rfl
  · rw [show (decide ((s.count (some "down") : Rat) > (s.length : Rat) / 2))
        = decide (2 * s.count (some "down") > s.length) from
      decide_eq_decide.mpr (down_majority_iff _ _)]

lemma is_monitor_down_nil : is_monitor_down [] = false := rfl

lemma foldl_addKey_mem (l : List (Option String)) :
    ∀ (acc : List (Option String)) (x : Option String),
      (x ∈ l.foldl addKey acc ↔ x ∈ acc ∨ x ∈ l) := by
  induction l with
  | nil => simp
  | cons a t ih =>
    intro acc x
    rw [List.foldl_cons, ih]
    unfold addKey
    split
    · rename_i hmem
      simp only [List.mem_cons]
      constructor
      · rintro (h | h)
        · exact Or.inl h
        · exact Or.inr (Or.inr h)
      · rintro (h | h | h)
        · exact Or.inl h
        · exact Or.inl (h ▸ hmem)
        · exact Or.inr h
    · simp only [List.mem_append, List.mem_cons, List.mem_singleton]
      tauto

lemma foldl_addKey_nodup (l : List (Option String)) :
    ∀ acc : List (Option String), acc.Nodup → (l.foldl addKey acc).Nodup := by
  induction l with
  | nil => intro acc h; simpa using h
  | cons a t ih =>
    intro acc h
    rw [List.foldl_cons]
    apply ih
    unfold addKey
    split
    · exact h
    · rename_i hmem
      refine List.Nodup.append h (List.nodup_singleton a) ?_
      intro x hx hxa
      rw [List.mem_singleton] at hxa
      exact hmem (hxa ▸ hx)

lemma mem_monitor_keys (ps : List (Option String × Option String)) (k : Option String) :
    k ∈ monitor_keys ps ↔ ∃ p ∈ ps, p.1 = k := by
  rw [monitor_keys, foldl_addKey_mem]
  simp [List.mem_map]

lemma monitor_keys_nodup (ps : List (Option String × Option String)) :
    (monitor_keys ps).Nodup :=
  foldl_addKey_nodup _ [] (by simp)

lemma down_mem_monitor_keys (ps : List (Option String × Option String))
    (k : Option String) (h : is_monitor_down (monitor_statuses ps k) = true) :
    k ∈ monitor_keys ps := by
  have hne : monitor_statuses ps k ≠ [] := by
    intro h0
    rw [h0, is_monitor_down_nil] at h
    exact Bool.false_ne_true h
  have hf : ps.filter (fun p => decide (p.1 = k)) ≠ [] := by
    intro h0
    exact hne (by rw [monitor_statuses, h0]; rfl)
  obtain ⟨p, hp⟩ := List.exists_mem_of_ne_nil _ hf
  have hp' := List.mem_filter.mp hp
  exact (mem_monitor_keys ps k).mpr ⟨p, hp'.1, of_decide_eq_true hp'.2⟩

lemma mem_down_monitors (ps : List (Option String × Option String)) (k : Option String) :
    k ∈ down_monitors ps ↔
      k ∈ monitor_keys ps ∧ is_monitor_down (monitor_statuses ps k) = true := by
  rw [down_monitors, List.mem_filter]

lemma status_pairs_no_none (w : List RecentEvent)
    (hwf : ∀ e ∈ w, e.monitor_name ≠ none) :
    ¬ ((status_pairs w).any (fun p => decide (p.1 = none)) = true) := by
  intro h
  rw [List.any_eq_true] at h
  obtain ⟨p, hp, hd⟩ := h
  rw [status_pairs, List.mem_map] at hp
  obtain ⟨e, he, rfl⟩ := hp
  exact hwf e he (of_decide_eq_true hd)

/-! ## Claim theorems -/

/-- C1: on a quick router restart (router reported DOWN at t=0,1,2 and UP
again at t=25, well within the 30-second grace period the claim describes),
`analyze_pattern` returns ROUTER_FAILURE immediately.  The code performs no
time-based discrimination at all: the router-down-alone branch (lines
196-202) is unconditionally ROUTER_FAILURE, there is no ROUTER_RESTART
category and no `is_transient` field, contradicting the claim and the
repository's own tests (`test_quick_router_restart_no_alert`,
`test_grace_period_configuration`). -/
theorem analyze_pattern_quick_restart_returns_router_failure :
    analyze_pattern
      [⟨some "Router 192.168.1.1", some "up", 25, "", 0⟩,
       ⟨some "Router 192.168.1.1", some "down", 2, "", 0⟩,
       ⟨some "Router 192.168.1.1", some "down", 1, "", 0⟩,
       ⟨some "Router 192.168.1.1", some "down", 0, "", 0⟩] =
    .ok { type := "ROUTER_FAILURE", confidence := 0.80,
          reason := "Only router is down",
          affected := some [some "Router 192.168.1.1"] } := by
  simp only [analyze_pattern, classify_pairs, status_pairs, router_down,
    dns_monitors_down, external_sites_down, down_monitors, is_monitor_down_eval]
  rfl

/-- C3: a monitor with a non-empty status list (newest first) is effectively
down exactly when its most recent status is `'down'` or a strict majority of
its statuses are `'down'`; a monitor with no observed statuses is not
down. -/
theorem is_monitor_down_iff_recent_down_or_strict_majority :
    (∀ s : List (Option String), s ≠ [] →
      (is_monitor_down s = true ↔
        s.headD none = some "down" ∨ 2 * s.count (some "down") > s.length))
    ∧ is_monitor_down [] = false := by
  constructor
  · intro s hs
    rw [is_monitor_down_eval, if_neg hs]
    simp only [Bool.or_eq_true, decide_eq_true_eq]
  · rfl

/-- Witness for C3: statuses `[up, down, down]` (newest first) — most recent
is up but a strict majority (2 of 3) is down, so the monitor counts as
down. -/
theorem is_monitor_down_iff_recent_down_or_strict_majority_witness :
    is_monitor_down [some "up", some "down", some "down"] = true :=
  ((is_monitor_down_iff_recent_down_or_strict_majority.1 _ (by decide)).mpr
    (Or.inr (by decide)))

/-- C6: on the empty window, classification succeeds with type UNKNOWN and
reason "No recent events"; the returned dict carries no `affected` key
(modelled as `none`), which every consumer reads as the empty list via
`.get('affected', [])` (`affected_list`). -/
theorem empty_window_classified_unknown_no_failure :
    analyze_pattern [] =
      .ok { type := "UNKNOWN", confidence := 0, reason := "No recent events",
            affected := none }
    ∧ affected_list ⟨"UNKNOWN", 0, "No recent events", none⟩ = [] :=
  ⟨rfl, rfl⟩

/-- C7: on the exact malformed window used by the repository's own test
`test_edge_case_empty_monitor_status` (one event whose status value is
`None`, one whose monitor name is `None`), `analyze_pattern` does not
exclude the malformed events: the `None` monitor name becomes a grouping
key and the membership test `'DNS' in name` of line 182 raises `TypeError`,
so classification fails instead of returning a result. -/
theorem none_monitor_name_makes_analyze_pattern_raise :
    analyze_pattern
      [⟨some "Test", none, 1, "", 0⟩,
       ⟨none, some "down", 0, "", 0⟩] =
    .error "TypeError: argument of type NoneType is not iterable" := by
  simp only [analyze_pattern, classify_pairs, status_pairs, router_down,
    dns_monitors_down, external_sites_down, down_monitors, is_monitor_down_eval]
  rfl

/-- C9: classification is a pure function of the window and reads only the
`monitor_name` and `status` field of each event: any two windows agreeing
on those projections — in particular windows differing only in
`response_time`, `message` or `timestamp` — classify identically, and the
same window always classifies identically. -/
theorem classification_depends_only_on_names_and_statuses
    (w w' : List RecentEvent) (h : status_pairs w = status_pairs w') :
    analyze_pattern w = analyze_pattern w' ∧ analyze_pattern w = analyze_pattern w := by
  refine ⟨?_, rfl⟩
  unfold analyze_pattern
  rw [h]

/-- Witness for C9: two one-event windows with the same monitor name and
status but different timestamps, messages and response latencies classify
identically. -/
theorem classification_depends_only_on_names_and_statuses_witness :
    analyze_pattern [⟨some "Google", some "down", 5, "timeout", 120⟩] =
      analyze_pattern [⟨some "Google", some "down", 99, "reset", 3⟩] :=
  (classification_depends_only_on_names_and_statuses _ _ rfl).1

/-- C5: whenever the window's events all carry a monitor name, the router's
effective state is down, and at least 2 DNS-named or at least 2
external-site monitors are effectively down, classification returns
POWER_OUTAGE — whatever other monitors are down; the counts and the
router check are functions of the grouped window, not of any iteration
order. -/
theorem power_outage_whenever_router_and_two_upstream_down
    (w : List RecentEvent)
    (hwf : ∀ e ∈ w, e.monitor_name ≠ none)
    (hr : router_down (status_pairs w) = true)
    (hc : dns_monitors_down (status_pairs w) ≥ 2 ∨
          external_sites_down (status_pairs w) ≥ 2) :
    analyze_pattern w =
      .ok { type := "POWER_OUTAGE", confidence := 0.95,
            reason := "Router and external services are down",
            affected := some (monitor_keys (status_pairs w)) } := by
  have hne : status_pairs w ≠ [] := by
    intro h0
    rw [router_down, h0] at hr
    exact Bool.false_ne_true hr
  unfold analyze_pattern classify_pairs
  rw [if_neg hne, if_neg (status_pairs_no_none w hwf), if_pos hr, if_pos hc]

/-- Witness for C5: router down together with two down DNS monitors yields
POWER_OUTAGE. -/
theorem power_outage_whenever_router_and_two_upstream_down_witness :
    analyze_pattern
      [⟨some "Router 192.168.1.1", some "down", 2, "", 0⟩,
       ⟨some "Google DNS", some "down", 1, "", 0⟩,
       ⟨some "Cloudflare DNS", some "down", 0, "", 0⟩] =
    .ok { type := "POWER_OUTAGE", confidence := 0.95,
          reason := "Router and external services are down",
          affected := some [some "Router 192.168.1.1", some "Google DNS",
                            some "Cloudflare DNS"] } := by
  have h := power_outage_whenever_router_and_two_upstream_down
    [⟨some "Router 192.168.1.1", some "down", 2, "", 0⟩,
     ⟨some "Google DNS", some "down", 1, "", 0⟩,
     ⟨some "Cloudflare DNS", some "down", 0, "", 0⟩]
    (by intro e he
        simp only [List.mem_cons, List.not_mem_nil, or_false] at he
        rcases he with h1 | h1 | h1 <;> subst h1 <;> simp)
    (by rfl)
    (by left; decide)
  exact h.trans rfl

/-- C4 counterexample: a window where the router and two DNS monitors are
down but the monitor named `Extra` is up is classified POWER_OUTAGE, and
`Extra` — a monitor judged up — appears in `affected`, because line 194
sets `affected` to `list(monitor_status.keys())`, all monitors in the
window, not the down ones. -/
theorem power_outage_affected_contains_up_monitor :
    analyze_pattern
      [⟨some "Router 192.168.1.1", some "down", 3, "", 0⟩,
       ⟨some "Google DNS", some "down", 2, "", 0⟩,
       ⟨some "Cloudflare DNS", some "down", 1, "", 0⟩,
       ⟨some "Extra", some "up", 0, "", 0⟩] =
    .ok { type := "POWER_OUTAGE", confidence := 0.95,
          reason := "Router and external services are down",
          affected := some [some "Router 192.168.1.1", some "Google DNS",
                            some "Cloudflare DNS", some "Extra"] }
    ∧ some "Extra" ∈ affected_list
        ⟨"POWER_OUTAGE", 0.95, "Router and external services are down",
         some [some "Router 192.168.1.1", some "Google DNS",
               some "Cloudflare DNS", some "Extra"]⟩
    ∧ is_monitor_down
        (monitor_statuses
          (status_pairs
            [⟨some "Router 192.168.1.1", some "down", 3, "", 0⟩,
             ⟨some "Google DNS", some "down", 2, "", 0⟩,
             ⟨some "Cloudflare DNS", some "down", 1, "", 0⟩,
             ⟨some "Extra", some "up", 0, "", 0⟩])
          (some "Extra")) = false := by
  refine ⟨?_, by decide, ?_⟩
  · simp only [analyze_pattern, classify_pairs, status_pairs, router_down,
      dns_monitors_down, external_sites_down, down_monitors, is_monitor_down_eval]
    rfl
  · rw [is_monitor_down_eval]
    rfl

/-- C4 amended: for every window classified POWER_OUTAGE, `affected` is the
de-duplicated list of ALL monitors observed in the window — every
effectively-down monitor appears in it, but monitors judged up appear as
well. -/
theorem power_outage_affected_equals_all_window_monitors
    (w : List RecentEvent) (r : AnalysisResult)
    (h : analyze_pattern w = .ok r) (ht : r.type = "POWER_OUTAGE") :
    r.affected = some (monitor_keys (status_pairs w))
    ∧ (monitor_keys (status_pairs w)).Nodup
    ∧ (∀ k, k ∈ monitor_keys (status_pairs w) ↔ ∃ e ∈ w, e.monitor_name = k)
    ∧ (∀ k, is_monitor_down (monitor_statuses (status_pairs w) k) = true →
        k ∈ monitor_keys (status_pairs w)) := by
  refine ⟨?_, monitor_keys_nodup _, ?_, fun k hk => down_mem_monitor_keys _ k hk⟩
  · unfold analyze_pattern classify_pairs at h
    split at h
    · cases h; simp at ht
    · split at h
      · cases h
      · split at h
        · split at h
          · cases h; rfl
          · cases h; simp at ht
        · split at h
          · cases h; simp at ht
          · split at h
            · cases h; simp at ht
            · cases h; simp at ht
  · intro k
    rw [mem_monitor_keys]
    constructor
    · rintro ⟨p, hp, rfl⟩
      rw [status_pairs, List.mem_map] at hp
      obtain ⟨e, he, rfl⟩ := hp
      exact ⟨e, he, rfl⟩
    · rintro ⟨e, he, rfl⟩
      exact ⟨(e.monitor_name, e.status), by rw [status_pairs, List.mem_map]; exact ⟨e, he, rfl⟩, rfl⟩

/-- Witness for C4 amended: on the counterexample-style window, the
POWER_OUTAGE `affected` equals the full de-duplicated monitor list. -/
theorem power_outage_affected_equals_all_window_monitors_witness :
    (⟨"POWER_OUTAGE", 0.95, "Router and external services are down",
      some [some "Router 192.168.1.1", some "Google DNS",
            some "Cloudflare DNS"]⟩ : AnalysisResult).affected
      = some (monitor_keys (status_pairs
          [⟨some "Router 192.168.1.1", some "down", 2, "", 0⟩,
           ⟨some "Google DNS", some "down", 1, "", 0⟩,
           ⟨some "Cloudflare DNS", some "down", 0, "", 0⟩])) :=
  (power_outage_affected_equals_all_window_monitors
    [⟨some "Router 192.168.1.1", some "down", 2, "", 0⟩,
     ⟨some "Google DNS", some "down", 1, "", 0⟩,
     ⟨some "Cloudflare DNS", some "down", 0, "", 0⟩]
    ⟨"POWER_OUTAGE", 0.95, "Router and external services are down",
     some [some "Router 192.168.1.1", some "Google DNS",
           some "Cloudflare DNS"]⟩
    (by simp only [analyze_pattern, classify_pairs, status_pairs, router_down,
          dns_monitors_down, external_sites_down, down_monitors, is_monitor_down_eval]
        rfl)
    rfl).1

/-- C10: monitor roles are hardcoded names inside the classifier — router
means exactly `'Router 192.168.1.1'`, DNS means the name contains `'DNS'`,
external site means exactly `'Google'`, `'Cloudflare'` or `'Wikipedia'`.
Whenever some monitor is effectively down but every down monitor falls
outside all three groups, none of the router/DNS/external-site conditions
can fire and the window is classified PARTIAL_OUTAGE with exactly the down
monitors affected. -/
theorem non_role_down_monitors_classified_partial_outage
    (w : List RecentEvent)
    (hwf : ∀ e ∈ w, e.monitor_name ≠ none)
    (hdown : down_monitors (status_pairs w) ≠ [])
    (hout : ∀ k ∈ down_monitors (status_pairs w),
        k ≠ some "Router 192.168.1.1" ∧ is_dns_name k = false ∧
        k ∉ external_site_names) :
    analyze_pattern w =
      .ok { type := "PARTIAL_OUTAGE", confidence := 0.70,
            reason := "Only specific services affected",
            affected := some (down_monitors (status_pairs w)) } := by
  have hne : status_pairs w ≠ [] := by
    intro h0
    rw [down_monitors, h0] at hdown
    exact hdown rfl
  have hr : router_down (status_pairs w) = false := by
    rw [router_down]
    by_contra h'
    rw [Bool.not_eq_false] at h'
    have hmem : some "Router 192.168.1.1" ∈ down_monitors (status_pairs w) :=
      (mem_down_monitors _ _).mpr ⟨down_mem_monitor_keys _ _ h', h'⟩
    exact (hout _ hmem).1 rfl
  have hdns : dns_monitors_down (status_pairs w) = 0 := by
    rw [dns_monitors_down, List.countP_eq_zero]
    intro n hn hp
    rw [Bool.and_eq_true] at hp
    have hmem : n ∈ down_monitors (status_pairs w) :=
      (mem_down_monitors _ _).mpr ⟨hn, hp.2⟩
    rw [(hout _ hmem).2.1] at hp
    exact Bool.false_ne_true hp.1
  have hext : external_sites_down (status_pairs w) = 0 := by
    rw [external_sites_down, List.countP_eq_zero]
    intro n hn hp
    rw [Bool.and_eq_true] at hp
    have hmem : n ∈ down_monitors (status_pairs w) :=
      (mem_down_monitors _ _).mpr ⟨hn, hp.2⟩
    exact (hout _ hmem).2.2 (of_decide_eq_true hp.1)
  unfold analyze_pattern classify_pairs
  rw [if_neg hne, if_neg (status_pairs_no_none w hwf),
    if_neg (by rw [hr]; exact Bool.false_ne_true),
    if_neg (by rw [hdns, hext]; omega), if_pos hdown]

/-- Witness for C10: a lone down monitor named `NAS` — not the router, not
DNS-named, not an external site — yields PARTIAL_OUTAGE. -/
theorem non_role_down_monitors_classified_partial_outage_witness :
    analyze_pattern [⟨some "NAS", some "down", 0, "", 0⟩] =
      .ok { type := "PARTIAL_OUTAGE", confidence := 0.70,
            reason := "Only specific services affected",
            affected := some [some "NAS"] } := by
  have h := non_role_down_monitors_classified_partial_outage
    [⟨some "NAS", some "down", 0, "", 0⟩]
    (by intro e he
        simp only [List.mem_cons, List.not_mem_nil, or_false] at he
        subst he; simp)
    (by decide)
    (by decide)
  exact h.trans rfl

/-- C2 counterexample: the gate computes `(now - last).seconds`, the
day-wrapped component of the elapsed time, not the elapsed time itself.
With an entry recorded at time 0 and a candidate alert one day plus 100
seconds later, the elapsed wall-clock time (86500 s) exceeds the 300 s
cooldown — the claim says the alert is allowed — yet the gate suppresses
it, because `86500 % 86400 = 100 < 300`. -/
theorem gate_counterexample_day_wrap :
    spec_should_send (record_sent (fun _ => none) "POWER_OUTAGE:Router 192.168.1.1" 0)
      "POWER_OUTAGE:Router 192.168.1.1" 86500
    ∧ gate_allows (record_sent (fun _ => none) "POWER_OUTAGE:Router 192.168.1.1" 0)
      "POWER_OUTAGE:Router 192.168.1.1" 86500 = false := by
  constructor
  · right
    intro t ht
    have : some (0 : Int) = some t := by
      simpa [record_sent] using ht
    cases this
    norm_num [notification_cooldown]
  · rfl

/-- C2 amended: the gate allows an alert for a key if and only if the key
has no entry or the day-wrapped seconds component of the elapsed time since
`last_sent_at` (Python's `timedelta.seconds`) is at least the cooldown
duration (default 300 s); after a send recorded at `T`, an alert for the
same key is suppressed at `T+100` and allowed at `T+301`; and a suppressed
check leaves the cooldown map untouched (the check itself never mutates
it). -/
theorem gate_allows_iff_mod_day_elapsed_ge_cooldown
    (st : GateState) (key : String) (now : Int) :
    (gate_allows st key now = true ↔
      ∀ t, st key = some t → timedelta_seconds (now - t) ≥ notification_cooldown)
    ∧ (∀ T, gate_allows (record_sent st key T) key (T + 100) = false)
    ∧ (∀ T, gate_allows (record_sent st key T) key (T + 301) = true)
    ∧ (∀ d, should_skip st key now = true → send_alert st key now d = (.ok (), st)) := by
  refine ⟨?_, ?_, ?_, ?_⟩
  · rw [gate_allows]
    unfold should_skip
    cases h : st key with
    | none => simp
    | some t =>
      simp only [Bool.not_eq_true', decide_eq_false_iff_not, not_lt,
        Option.some.injEq]
      constructor
      · intro hle t' ht'
        cases ht'
        exact hle
      · intro hall
        exact hall t rfl
  · intro T
    have hl : record_sent st key T key = some T := by simp [record_sent]
    rw [gate_allows]
    unfold should_skip
    rw [hl]
    show (!(decide (timedelta_seconds (T + 100 - T) < notification_cooldown))) = false
    have harith : T + 100 - T = 100 := by ring
    rw [harith]
    rfl
  · intro T
    have hl : record_sent st key T key = some T := by simp [record_sent]
    rw [gate_allows]
    unfold should_skip
    rw [hl]
    show (!(decide (timedelta_seconds (T + 301 - T) < notification_cooldown))) = true
    have harith : T + 301 - T = 301 := by ring
    rw [harith]
    rfl
  · intro d hskip
    rw [send_alert, if_pos hskip]

/-- Witness for C2 amended: with a fresh gate and a send recorded at time
0, the same key is suppressed at 100 s and allowed at 301 s. -/
theorem gate_allows_iff_mod_day_elapsed_ge_cooldown_witness :
    gate_allows (record_sent (fun _ => none) "ISP_OUTAGE:Google" 0)
      "ISP_OUTAGE:Google" 100 = false
    ∧ gate_allows (record_sent (fun _ => none) "ISP_OUTAGE:Google" 0)
      "ISP_OUTAGE:Google" 301 = true := by
  have h := gate_allows_iff_mod_day_elapsed_ge_cooldown (fun _ => none) "ISP_OUTAGE:Google" 0
  exact ⟨by simpa using h.2.1 0, by simpa using h.2.2.1 0⟩

/-- C8: when the cooldown check passes but dispatching the message fails
(raises), `last_notification` is left exactly as it was — the key's entry
is not updated, the failure propagates, and the key is still eligible at
the next qualifying event; the entry is written only on the successful
path. -/
theorem failed_dispatch_does_not_record_cooldown
    (st : GateState) (key : String) (now : Int)
    (h : should_skip st key now = false) :
    send_alert st key now false = (.error "DispatchFailure", st)
    ∧ (send_alert st key now false).2 key = st key
    ∧ gate_allows (send_alert st key now false).2 key now = true
    ∧ (send_alert st key now true).2 = record_sent st key now := by
  have hfail : send_alert st key now false = (.error "DispatchFailure", st) := by
    rw [send_alert, if_neg (by rw [h]; exact Bool.false_ne_true), if_neg (by simp)]
  have hok : send_alert st key now true = (.ok (), record_sent st key now) := by
    rw [send_alert, if_neg (by rw [h]; exact Bool.false_ne_true), if_pos rfl]
  refine ⟨hfail, by rw [hfail], ?_, by rw [hok]⟩
  rw [hfail, gate_allows, h]
  rfl

/-- Witness for C8: on a fresh gate, a failed dispatch returns the
`DispatchFailure` outcome with the map unchanged. -/
theorem failed_dispatch_does_not_record_cooldown_witness :
    send_alert (fun _ => none) "ROUTER_FAILURE:Router 192.168.1.1" 0 false
      = (.error "DispatchFailure", (fun _ => none)) :=
  (failed_dispatch_does_not_record_cooldown
    (fun _ => none) "ROUTER_FAILURE:Router 192.168.1.1" 0 rfl).1
